import Mathlib

/-!
Verification of the HTML5 converter `cto5.py`.

The program is a linear pipeline of Python `re` substitutions and string
operations over one in-memory text buffer.  We embed it shallowly:

* the buffer is a `List Char` (`Str`);
* every Python regular expression of the source is transcribed into a small
  regex AST (`RE`) and run by a backtracking matcher `mc` implementing the
  Python `re` semantics the source relies on: leftmost match, ordered
  alternation, greedy and lazy quantifiers, capture groups, backreferences,
  negative lookahead, word boundaries, and the IGNORECASE / DOTALL flags
  (IGNORECASE is a parameter of the matcher, DOTALL is reflected in the AST
  by choosing `RE.dotall` instead of `RE.dot` for `.`);
* `re.sub` / `re.search` / `re.finditer` become `reSub` / `reSearch` /
  `reFindAll`, and the Python string methods used by the source
  (`replace`, `strip`, `rstrip`, `split`, `join`, `isdigit`) are
  transcribed as executable functions on `Str`;
* `re.sub` calls whose replacement *string* interpolates document-derived
  text are modeled with full replacement-template processing
  (`parseTemplate`), including the `re.error` Python raises on an invalid
  escape or group reference; fallible steps return `Option` with `none`
  for a raised exception, and `convert_to_html5` propagates it.

Every definition is computable and structurally recursive, so the kernel can
evaluate the whole pipeline on concrete documents.
-/

namespace Cto5

abbrev Str := List Char

/-- The double-quote character. -/
def dq : Char := Char.ofNat 34

/-- The single-quote character. -/
def sq : Char := Char.ofNat 39

/-- ASCII whitespace, as Python's `str.strip()` and the regex class `\s`
treat it (the source documents only contain ASCII whitespace). -/
def isPySpace (c : Char) : Bool :=
  c == ' ' || c == '\t' || c == '\n' || c == '\r' ||
  c == Char.ofNat 11 || c == Char.ofNat 12

/-- Drop characters satisfying `p` from the front (Python `lstrip`). -/
def pyLStrip (p : Char → Bool) (s : Str) : Str := s.dropWhile p

/-- Drop characters satisfying `p` from the back (Python `rstrip`). -/
def pyRStrip (p : Char → Bool) (s : Str) : Str := (s.reverse.dropWhile p).reverse

/-- Python `str.strip()` (whitespace on both ends). -/
def pyStripWs (s : Str) : Str := pyRStrip isPySpace (pyLStrip isPySpace s)

/-- Python `str.strip(chars)` for an explicit character set. -/
def pyStripChars (cs : List Char) (s : Str) : Str :=
  pyRStrip (fun c => cs.contains c) (pyLStrip (fun c => cs.contains c) s)

/-- Python `str.rstrip(chars)` for an explicit character set. -/
def pyRStripChars (cs : List Char) (s : Str) : Str :=
  pyRStrip (fun c => cs.contains c) s

/-- Python `str.split(sep)` for a one-character separator: `"".split(";")`
is `[""]`, separators produce empty fragments. -/
def splitSep (sep : Char) : Str → List Str
  | [] => [[]]
  | c :: cs =>
    if c == sep then [] :: splitSep sep cs
    else
      match splitSep sep cs with
      | [] => [[c]]
      | h :: t => (c :: h) :: t

/-- Python `str.isdigit()` (ASCII digits, which is all the source meets). -/
def pyIsDigit (s : Str) : Bool := !s.isEmpty && s.all Char.isDigit

/-- Python `sep.join(parts)`. -/
def pyJoin (sep : Str) (parts : List Str) : Str := List.intercalate sep parts

/-- Worker for `strReplaceAll`; the fuel only bounds the recursion depth
(each step consumes at least one character, so `fuel = s.length` is always
enough and the `fuel = 0` case is never reached on that call). -/
def strReplaceAllGo (old new : Str) : Nat → Str → Str
  | _, [] => []
  | 0, s => s
  | fuel + 1, c :: cs =>
    if old ≠ [] ∧ old.isPrefixOf (c :: cs) then
      new ++ strReplaceAllGo old new fuel ((c :: cs).drop old.length)
    else
      c :: strReplaceAllGo old new fuel cs

/-- Python `str.replace(old, new)`: replace all non-overlapping occurrences,
scanning left to right (`old` is never empty at the call sites we model). -/
def strReplaceAll (old new : Str) (s : Str) : Str :=
  strReplaceAllGo old new s.length s

/-- Python `str.replace(old, new, 1)`: replace only the first occurrence. -/
def strReplace1 (old new : Str) : Str → Str
  | [] => []
  | c :: cs =>
    if old ≠ [] ∧ old.isPrefixOf (c :: cs) then new ++ (c :: cs).drop old.length
    else c :: strReplace1 old new cs

/-- Number of (possibly overlapping) occurrences of `needle` in the string;
used only to state properties such as "exactly one `lang` attribute". -/
def countOccs (needle : Str) : Str → Nat
  | [] => 0
  | c :: cs => (if needle.isPrefixOf (c :: cs) then 1 else 0) + countOccs needle cs

/-! ## Regex AST and matcher -/

/-- Regex AST covering exactly the constructs appearing in the source's
patterns. -/
inductive RE where
  | eps
  | chr (c : Char)
  | dot                                     -- `.` without DOTALL
  | dotall                                  -- `.` under the DOTALL flag
  | cls (neg : Bool) (ranges : List (Char × Char))
  | seq (a b : RE)
  | alt (a b : RE)                          -- ordered alternation, left first
  | star (lazy : Bool) (r : RE)
  | grp (n : Nat) (r : RE)
  | bref (n : Nat)
  | nla (r : RE)                            -- negative lookahead `(?! r)`
  | wordB                                   -- `\b`

/-- Concatenation of a list of regexes. -/
def RE.cat (rs : List RE) : RE := rs.foldr RE.seq RE.eps

/-- Literal string. -/
def RE.lit (s : String) : RE := RE.cat (s.data.map RE.chr)

/-- Ordered alternation of a list of regexes. -/
def RE.alts : List RE → RE
  | [] => RE.eps
  | [r] => r
  | r :: rest => RE.alt r (RE.alts rest)

/-- `r+` (greedy if `lazy = false`). -/
def RE.plus (lazy : Bool) (r : RE) : RE := .seq r (.star lazy r)

/-- `r?` (greedy if `lazy = false`). -/
def RE.opt (lazy : Bool) (r : RE) : RE :=
  if lazy then .alt .eps r else .alt r .eps

/-- Character comparison, case-folded under IGNORECASE. -/
def ceq (ic : Bool) (a b : Char) : Bool :=
  if ic then a.toLower == b.toLower else a == b

def isWordChar (c : Char) : Bool := c.isAlpha || c.isDigit || c == '_'

def inRanges (c : Char) (rs : List (Char × Char)) : Bool :=
  rs.any (fun p => decide (p.1 ≤ c) && decide (c ≤ p.2))

/-- Character-class membership (IGNORECASE tries the case-folded variants). -/
def clsMem (ic : Bool) (neg : Bool) (c : Char) (rs : List (Char × Char)) : Bool :=
  let m := inRanges c rs || (ic && (inRanges c.toLower rs || inRanges c.toUpper rs))
  if neg then !m else m

/-- Captured groups: `(number, start, stop)` positions in the subject,
most recent capture first. -/
abbrev Groups := List (Nat × Nat × Nat)

def lookupG (gs : Groups) (n : Nat) : Option (Nat × Nat) :=
  match gs with
  | [] => none
  | (m, a, b) :: rest => if m == n then some (a, b) else lookupG rest n

/-- `slice s a b` is the substring of `s` from position `a` (inclusive) to
`b` (exclusive). -/
def slice (s : Str) (a b : Nat) : Str := (s.drop a).take (b - a)

/-- Matcher continuation: previous character, remaining input, absolute
position, captured groups. -/
abbrev MK := Option Char → Str → Nat → Groups → Option (Nat × Groups)

/-- Consume the literal string `cap` (used for backreferences). -/
def eatStr (ic : Bool) : Str → Option Char → Str → Nat → Groups → MK →
    Option (Nat × Groups)
  | [], pv, s, pos, gs, k => k pv s pos gs
  | _ :: _, _, [], _, _, _ => none
  | c :: cr, _, x :: xs, pos, gs, k =>
    if ceq ic c x then eatStr ic cr (some x) xs (pos + 1) gs k else none

/-- Backtracking matcher with the Python `re` strategy: ordered alternation,
greedy quantifiers try the longer match first, lazy ones the shorter.
`fuel` only bounds recursion depth (it decreases at every call, and the
call structure resets it per sequential continuation, so any
`fuel ≥ input length + pattern depth` is enough; continuations reset the
budget, star iterations consume one unit each and must advance). -/
def mc (full : Str) (ic : Bool) :
    Nat → RE → Option Char → Str → Nat → Groups → MK → Option (Nat × Groups)
  | 0, _, _, _, _, _, _ => none
  | fuel + 1, re, pv, s, pos, gs, k =>
    match re with
    | .eps => k pv s pos gs
    | .chr c =>
      match s with
      | [] => none
      | x :: xs => if ceq ic c x then k (some x) xs (pos + 1) gs else none
    | .dot =>
      match s with
      | [] => none
      | x :: xs => if x == '\n' then none else k (some x) xs (pos + 1) gs
    | .dotall =>
      match s with
      | [] => none
      | x :: xs => k (some x) xs (pos + 1) gs
    | .cls neg rs =>
      match s with
      | [] => none
      | x :: xs => if clsMem ic neg x rs then k (some x) xs (pos + 1) gs else none
    | .seq a b =>
      mc full ic fuel a pv s pos gs
        (fun pv2 s2 p2 g2 => mc full ic fuel b pv2 s2 p2 g2 k)
    | .alt a b =>
      (mc full ic fuel a pv s pos gs k) <|> (mc full ic fuel b pv s pos gs k)
    | .star lz r =>
      let again : MK := fun pv2 s2 p2 g2 =>
        if p2 == pos then none
        else mc full ic fuel (.star lz r) pv2 s2 p2 g2 k
      if lz then (k pv s pos gs) <|> (mc full ic fuel r pv s pos gs again)
      else (mc full ic fuel r pv s pos gs again) <|> (k pv s pos gs)
    | .grp n r =>
      mc full ic fuel r pv s pos gs
        (fun pv2 s2 p2 g2 => k pv2 s2 p2 ((n, pos, p2) :: g2))
    | .bref n =>
      match lookupG gs n with
      | none => none
      | some (a, b) => eatStr ic (slice full a b) pv s pos gs k
    | .nla r =>
      match mc full ic fuel r pv s pos gs (fun _ _ p2 g2 => some (p2, g2)) with
      | some _ => none
      | none => k pv s pos gs
    | .wordB =>
      let wl := match pv with | none => false | some c => isWordChar c
      let wr := match s with | [] => false | x :: _ => isWordChar x
      if wl != wr then k pv s pos gs else none

/-- Leftmost search: try to match at each successive position, like the
`re` module does for `search`, `sub` and `finditer`.  Returns the absolute
start and end positions of the first match, with its groups. -/
def searchAux (re : RE) (ic : Bool) (full : Str) :
    Option Char → Str → Nat → Option (Nat × Nat × Groups)
  | pv, s, pos =>
    match mc full ic (s.length + 200) re pv s pos [] (fun _ _ p g => some (p, g)) with
    | some (e, g) => some (pos, e, g)
    | none =>
      match s with
      | [] => none
      | c :: cs => searchAux re ic full (some c) cs (pos + 1)

/-- A match object: the subject, the span, and the captured groups. -/
structure RMatch where
  full : Str
  mstart : Nat
  mstop : Nat
  gs : Groups
deriving DecidableEq

/-- Python `m.group(n)`: `0` is the whole match; an unmatched group gives
the empty string (as `re.sub` templates do since Python 3.5). -/
def RMatch.group (m : RMatch) (n : Nat) : Str :=
  if n == 0 then slice m.full m.mstart m.mstop
  else
    match lookupG m.gs n with
    | some (a, b) => slice m.full a b
    | none => []

/-- The character just before position `pos` (for `\b` at a resume point). -/
def prevAt (full : Str) (pos : Nat) : Option Char :=
  if pos == 0 then none else (full.drop (pos - 1)).head?

/-- Python `re.search`. -/
def reSearch (re : RE) (ic : Bool) (s : Str) : Option RMatch :=
  match searchAux re ic s none s 0 with
  | none => none
  | some (st, e, g) => some ⟨s, st, e, g⟩

/-- Replace matches from position `pos` onwards (the tail of `re.sub`
after the first match has been handled by `reSub`). -/
def subFrom (re : RE) (ic : Bool) (f : RMatch → Str) (full : Str) :
    Nat → Nat → Str
  | 0, pos => full.drop pos
  | fuel + 1, pos =>
    match searchAux re ic full (prevAt full pos) (full.drop pos) pos with
    | none => full.drop pos
    | some (st, e, g) =>
      slice full pos st ++ f ⟨full, st, e, g⟩ ++
        (if st < e then subFrom re ic f full fuel e
         else
           match full.drop e with
           | [] => []
           | c :: _ => c :: subFrom re ic f full fuel (e + 1))

/-- Python `re.sub(pattern, f, s)` with a replacement function `f`
(constant-string and template replacements are particular `f`s):
non-overlapping matches, scanning left to right, each match replaced by
`f match`. -/
def reSub (re : RE) (ic : Bool) (f : RMatch → Str) (s : Str) : Str :=
  match searchAux re ic s none s 0 with
  | none => s
  | some (st, e, g) =>
    slice s 0 st ++ f ⟨s, st, e, g⟩ ++
      (if st < e then subFrom re ic f s (s.length + 2) e
       else
         match s.drop e with
         | [] => []
         | c :: _ => c :: subFrom re ic f s (s.length + 2) (e + 1))

/-- All matches, left to right, non-overlapping (Python `re.finditer`). -/
def findAllFrom (re : RE) (ic : Bool) (full : Str) : Nat → Nat → List RMatch
  | 0, _ => []
  | fuel + 1, pos =>
    match searchAux re ic full (prevAt full pos) (full.drop pos) pos with
    | none => []
    | some (st, e, g) =>
      (⟨full, st, e, g⟩ : RMatch) ::
        (if st < e then findAllFrom re ic full fuel e
         else
           match full.drop e with
           | [] => []
           | _ :: _ => findAllFrom re ic full fuel (e + 1))

def reFindAll (re : RE) (ic : Bool) (s : Str) : List RMatch :=
  findAllFrom re ic s (s.length + 2) 0

/-! ## Replacement templates

Python processes a *string* replacement passed to `re.sub` as a template
(CPython `sre_parse.parse_template`): backreferences are substituted and
invalid escapes raise `re.error`.  The source interpolates document-derived
text into such replacement strings at three call sites
(`f'style="{new_style}"'`, cto5.py lines 72, 348 and 411), so this error
path is reachable from `convert_to_html5` and must be modeled: parsing
returns `none` where Python raises. -/

/-- A parsed replacement-template piece: literal text or a group reference. -/
inductive TplPiece where
  | lit (s : Str)
  | gref (n : Nat)

def isOctDigit (c : Char) : Bool := decide ('0' ≤ c) && decide (c ≤ '7')

def octVal (c : Char) : Nat := c.toNat - 48

def digitsVal (s : Str) : Nat := s.foldl (fun a c => a * 10 + (c.toNat - 48)) 0

/-- CPython `sre_parse.parse_template`, specialized to patterns without
named groups (all of the source's patterns are unnamed): `\g<number>` and
`\number` are group references (`none` when the number exceeds the
pattern's group count — Python raises `re.error: invalid group
reference`; a non-numeric `\g<...>` name is an unknown group name for
these patterns and also raises); `\0` starts an octal escape of up to two
more octal digits; `\ddd` with three octal digits is an octal escape
(error above 0o377), `\dd` otherwise a two-digit group reference;
`\a \b \f \n \r \t \v` are the template control-character escapes and
`\\` a backslash; a backslash before any other ASCII letter is a bad
escape (error); before a non-letter both characters are kept; a trailing
lone backslash is an error.  Python parses the template before scanning,
so an invalid template raises even when nothing matches.  The fuel
decreases at every step and each step consumes at least one character, so
`length + 1` is always enough. -/
def parseTemplateGo (ngroups : Nat) : Nat → Str → Option (List TplPiece)
  | _, [] => some []
  | 0, _ :: _ => none
  | fuel + 1, c :: rest =>
    if c == '\\' then
      match rest with
      | [] => none
      | e :: r2 =>
        if e == 'g' then
          match r2 with
          | lt :: r3 =>
            if lt == '<' then
              let name := r3.takeWhile (fun x => x != '>')
              match r3.drop name.length with
              | gt :: r5 =>
                if gt == '>' && !name.isEmpty && name.all Char.isDigit then
                  if digitsVal name > ngroups then none
                  else (parseTemplateGo ngroups fuel r5).map
                    (fun ps => .gref (digitsVal name) :: ps)
                else none
              | [] => none
            else none
          | [] => none
        else if e == '0' then
          match r2 with
          | d1 :: r3 =>
            if isOctDigit d1 then
              match r3 with
              | d2 :: r4 =>
                if isOctDigit d2 then
                  (parseTemplateGo ngroups fuel r4).map
                    (fun ps => .lit [Char.ofNat ((octVal d1 * 8 + octVal d2) % 256)] :: ps)
                else
                  (parseTemplateGo ngroups fuel r3).map
                    (fun ps => .lit [Char.ofNat (octVal d1)] :: ps)
              | [] =>
                (parseTemplateGo ngroups fuel r3).map
                  (fun ps => .lit [Char.ofNat (octVal d1)] :: ps)
            else
              (parseTemplateGo ngroups fuel r2).map
                (fun ps => .lit [Char.ofNat 0] :: ps)
          | [] =>
            (parseTemplateGo ngroups fuel r2).map
              (fun ps => .lit [Char.ofNat 0] :: ps)
        else if e.isDigit then
          match r2 with
          | d2 :: r3 =>
            if d2.isDigit then
              match r3 with
              | d3 :: r4 =>
                if isOctDigit e && isOctDigit d2 && isOctDigit d3 then
                  if octVal e * 64 + octVal d2 * 8 + octVal d3 > 255 then none
                  else (parseTemplateGo ngroups fuel r4).map
                    (fun ps => .lit [Char.ofNat (octVal e * 64 + octVal d2 * 8 + octVal d3)] :: ps)
                else
                  if octVal e * 10 + octVal d2 > ngroups then none
                  else (parseTemplateGo ngroups fuel r3).map
                    (fun ps => .gref (octVal e * 10 + octVal d2) :: ps)
              | [] =>
                if octVal e * 10 + octVal d2 > ngroups then none
                else (parseTemplateGo ngroups fuel r3).map
                  (fun ps => .gref (octVal e * 10 + octVal d2) :: ps)
            else
              if octVal e > ngroups then none
              else (parseTemplateGo ngroups fuel r2).map (fun ps => .gref (octVal e) :: ps)
          | [] =>
            if octVal e > ngroups then none
            else (parseTemplateGo ngroups fuel r2).map (fun ps => .gref (octVal e) :: ps)
        else if e == 'a' then
          (parseTemplateGo ngroups fuel r2).map (fun ps => .lit [Char.ofNat 7] :: ps)
        else if e == 'b' then
          (parseTemplateGo ngroups fuel r2).map (fun ps => .lit [Char.ofNat 8] :: ps)
        else if e == 'f' then
          (parseTemplateGo ngroups fuel r2).map (fun ps => .lit [Char.ofNat 12] :: ps)
        else if e == 'n' then
          (parseTemplateGo ngroups fuel r2).map (fun ps => .lit [Char.ofNat 10] :: ps)
        else if e == 'r' then
          (parseTemplateGo ngroups fuel r2).map (fun ps => .lit [Char.ofNat 13] :: ps)
        else if e == 't' then
          (parseTemplateGo ngroups fuel r2).map (fun ps => .lit [Char.ofNat 9] :: ps)
        else if e == 'v' then
          (parseTemplateGo ngroups fuel r2).map (fun ps => .lit [Char.ofNat 11] :: ps)
        else if e == '\\' then
          (parseTemplateGo ngroups fuel r2).map (fun ps => .lit ['\\'] :: ps)
        else if e.isAlpha then none
        else (parseTemplateGo ngroups fuel r2).map (fun ps => .lit ['\\', e] :: ps)
    else
      (parseTemplateGo ngroups fuel rest).map (fun ps => .lit [c] :: ps)

def parseTemplate (ngroups : Nat) (tpl : Str) : Option (List TplPiece) :=
  parseTemplateGo ngroups (tpl.length + 1) tpl

/-- Expand a parsed template at a match (an unmatched group substitutes
the empty string, as `re.sub` does since Python 3.5). -/
def expandPieces (ps : List TplPiece) (m : RMatch) : Str :=
  ps.foldr (fun p acc =>
    (match p with
     | .lit s => s
     | .gref n => m.group n) ++ acc) []

/-- Python `re.sub(pattern, template_string, s)` where the template is an
arbitrary (possibly document-derived) string: the template is parsed
first — `none` when that raises — and then substituted at every match.
`ngroups` is the number of capture groups of `re`. -/
def reSubTpl (re : RE) (ic : Bool) (ngroups : Nat) (tpl : Str) (s : Str) : Option Str :=
  match parseTemplate ngroups tpl with
  | none => none
  | some ps => some (reSub re ic (expandPieces ps) s)

/-- Worker for `reSubF`. -/
def subFromF (re : RE) (ic : Bool) (f : RMatch → Option Str) (full : Str) :
    Nat → Nat → Option Str
  | 0, pos => some (full.drop pos)
  | fuel + 1, pos =>
    match searchAux re ic full (prevAt full pos) (full.drop pos) pos with
    | none => some (full.drop pos)
    | some (st, e, g) =>
      match f ⟨full, st, e, g⟩ with
      | none => none
      | some r =>
        let tail :=
          if st < e then subFromF re ic f full fuel e
          else
            match full.drop e with
            | [] => some ([] : Str)
            | c :: _ => (subFromF re ic f full fuel (e + 1)).map (fun t => c :: t)
        tail.map (fun t => slice full pos st ++ r ++ t)

/-- Python `re.sub` with a replacement function that can itself raise (the
handlers that call `re.sub` with an f-string template internally): an
error in any match's replacement aborts the whole substitution, like the
exception would. -/
def reSubF (re : RE) (ic : Bool) (f : RMatch → Option Str) (s : Str) : Option Str :=
  subFromF re ic f s (s.length + 2) 0

/-! ## The source's regular expressions, transcribed one-to-one

Each definition carries the original pattern as a comment.  Whether a
pattern runs under IGNORECASE is decided at its call site (exactly where
the source passes `flags=re.IGNORECASE`); DOTALL shows up as `.dotall`. -/

/-- The class `\s`. -/
def reWs : RE := .cls false
  [(' ', ' '), ('\t', '\t'), ('\n', '\n'), ('\r', '\r'),
   (Char.ofNat 11, Char.ofNat 11), (Char.ofNat 12, Char.ofNat 12)]

/-- The class `[^>]`. -/
def reNonGt : RE := .cls true [('>', '>')]

/-- The class `["\']`. -/
def reQuote : RE := .cls false [(dq, dq), (sq, sq)]

/-- The class `[^"\']`. -/
def reNonQuote : RE := .cls true [(dq, dq), (sq, sq)]

/-- The class `[^"]`. -/
def reNonDq : RE := .cls true [(dq, dq)]

/-- The class `\d`. -/
def reDigit : RE := .cls false [('0', '9')]

/-- The class `\w`. -/
def reWordC : RE := .cls false [('0', '9'), ('A', 'Z'), ('a', 'z'), ('_', '_')]

-- r'[\x00-\x08\x0B\x0C\x0E-\x1F\x7F-\x9F]'
def ctrlRe : RE := .cls false
  [(Char.ofNat 0, Char.ofNat 8), (Char.ofNat 11, Char.ofNat 11),
   (Char.ofNat 12, Char.ofNat 12), (Char.ofNat 14, Char.ofNat 31),
   (Char.ofNat 127, Char.ofNat 159)]

-- r'<\?xml[^>]*\?>[\r\n]*[\n\r]*'
def xmlDeclRe : RE := RE.cat
  [RE.lit "<?xml", .star false reNonGt, RE.lit "?>",
   .star false (.cls false [('\r', '\r'), ('\n', '\n')]),
   .star false (.cls false [('\n', '\n'), ('\r', '\r')])]

-- r'<!DOCTYPE[^>]*>'  (IGNORECASE)
def doctypeRe : RE := RE.cat [RE.lit "<!DOCTYPE", .star false reNonGt, .chr '>']

-- r'<html[^>]*>'  (IGNORECASE)
def htmlTagRe : RE := RE.cat [RE.lit "<html", .star false reNonGt, .chr '>']

-- r'\s+xmlns="[^"]*"'
def xmlnsRe : RE := RE.cat
  [RE.plus false reWs, RE.lit "xmlns=\"", .star false reNonDq, .chr dq]

-- r'\s+xml:lang="[^"]*"'
def xmlLangRe : RE := RE.cat
  [RE.plus false reWs, RE.lit "xml:lang=\"", .star false reNonDq, .chr dq]

-- r'\s+lang="([^"]*)"'
def langCapRe : RE := RE.cat
  [RE.plus false reWs, RE.lit "lang=\"", .grp 1 (.star false reNonDq), .chr dq]

-- r'\s+lang="[^"]*"'
def langRe : RE := RE.cat
  [RE.plus false reWs, RE.lit "lang=\"", .star false reNonDq, .chr dq]

-- r'[\s]*<meta[^>]*Content-Style-Type[^>]*/?>[\s]*\n?'  (IGNORECASE)
def metaStyleTypeRe : RE := RE.cat
  [.star false reWs, RE.lit "<meta", .star false reNonGt,
   RE.lit "Content-Style-Type", .star false reNonGt, RE.opt false (.chr '/'),
   .chr '>', .star false reWs, RE.opt false (.chr '\n')]

-- r'<meta[^>]+charset=[^>]*>|<meta\s+http-equiv=["\']Content-Type["\'][^>]*>'
-- (IGNORECASE)
def charsetSearchRe : RE := .alt
  (RE.cat [RE.lit "<meta", RE.plus false reNonGt, RE.lit "charset=",
           .star false reNonGt, .chr '>'])
  (RE.cat [RE.lit "<meta", RE.plus false reWs, RE.lit "http-equiv=", reQuote,
           RE.lit "Content-Type", reQuote, .star false reNonGt, .chr '>'])

-- r'(<head[^>]*>)'  (IGNORECASE)
def headRe : RE := .grp 1 (RE.cat [RE.lit "<head", .star false reNonGt, .chr '>'])

-- r'\s+xml:space=["\'][^"\']*["\']'  (IGNORECASE)
def xmlSpaceRe : RE := RE.cat
  [RE.plus false reWs, RE.lit "xml:space=", reQuote, .star false reNonQuote, reQuote]

-- r'<style\s+type=["\']text/css["\']'  (IGNORECASE)
def styleTypeRe : RE := RE.cat
  [RE.lit "<style", RE.plus false reWs, RE.lit "type=", reQuote,
   RE.lit "text/css", reQuote]

-- r'(<style[^>]*>)\s*<!\[CDATA\[(.*?)\]\]>\s*(</style>)'  (DOTALL | IGNORECASE)
def cdataRe1 : RE := RE.cat
  [.grp 1 (RE.cat [RE.lit "<style", .star false reNonGt, .chr '>']),
   .star false reWs, RE.lit "<![CDATA[", .grp 2 (.star true .dotall),
   RE.lit "]]>", .star false reWs, .grp 3 (RE.lit "</style>")]

-- r'(<style[^>]*>)\s*/\*<!\[CDATA\[\*/\s*(.*?)\s*/\*\]\]>\*/\s*(</style>)'
-- (DOTALL | IGNORECASE)
def cdataRe2 : RE := RE.cat
  [.grp 1 (RE.cat [RE.lit "<style", .star false reNonGt, .chr '>']),
   .star false reWs, RE.lit "/*<![CDATA[*/", .star false reWs,
   .grp 2 (.star true .dotall), .star false reWs, RE.lit "/*]]>*/",
   .star false reWs, .grp 3 (RE.lit "</style>")]

-- r'<style[^>]*>(.*?)</style>'  (DOTALL | IGNORECASE)
def styleContentRe : RE := RE.cat
  [RE.lit "<style", .star false reNonGt, .chr '>', .grp 1 (.star true .dotall),
   RE.lit "</style>"]

-- r'\s*\/\/\s*-->\s*'
def cssCommentRe1 : RE := RE.cat
  [.star false reWs, RE.lit "//", .star false reWs, RE.lit "-->", .star false reWs]

-- r'\s*\/\*\s*XML\s+end\s*\]\]>\s*\*\/\s*'
def cssCommentRe2 : RE := RE.cat
  [.star false reWs, RE.lit "/*", .star false reWs, RE.lit "XML",
   RE.plus false reWs, RE.lit "end", .star false reWs, RE.lit "]]>",
   .star false reWs, RE.lit "*/", .star false reWs]

-- r'\s*\]\]>\s*'
def cssCommentRe3 : RE := RE.cat
  [.star false reWs, RE.lit "]]>", .star false reWs]

-- r'<tt([^>]*)>'  (IGNORECASE)
def ttOpenRe : RE := RE.cat [RE.lit "<tt", .grp 1 (.star false reNonGt), .chr '>']

-- r'</tt>'  (IGNORECASE)
def ttCloseRe : RE := RE.lit "</tt>"

-- r'<big([^>]*)>'  (IGNORECASE)
def bigOpenRe : RE := RE.cat [RE.lit "<big", .grp 1 (.star false reNonGt), .chr '>']

-- r'</big>'  (IGNORECASE)
def bigCloseRe : RE := RE.lit "</big>"

-- r'<center([^>]*)>'  (IGNORECASE)
def centerOpenRe : RE := RE.cat
  [RE.lit "<center", .grp 1 (.star false reNonGt), .chr '>']

-- r'</center>'  (IGNORECASE)
def centerCloseRe : RE := RE.lit "</center>"

/-- `["\'][^"\']*["\']` — a quoted attribute value, quotes included. -/
def quotedValRe : RE := RE.cat [reQuote, .star false reNonQuote, reQuote]

-- r'<a([^>]*?)\s+id=(["\'][^"\']*["\'])\s+name=\2([^>]*?)>'  (IGNORECASE)
def anchorIdNameRe : RE := RE.cat
  [RE.lit "<a", .grp 1 (.star true reNonGt), RE.plus false reWs, RE.lit "id=",
   .grp 2 quotedValRe, RE.plus false reWs, RE.lit "name=", .bref 2,
   .grp 3 (.star true reNonGt), .chr '>']

-- r'<a([^>]*?)\s+name=(["\'][^"\']*["\'])\s+id=\2([^>]*?)>'  (IGNORECASE)
def anchorNameIdRe : RE := RE.cat
  [RE.lit "<a", .grp 1 (.star true reNonGt), RE.plus false reWs, RE.lit "name=",
   .grp 2 quotedValRe, RE.plus false reWs, RE.lit "id=", .bref 2,
   .grp 3 (.star true reNonGt), .chr '>']

-- r'<a([^>]*?)\s+name=(["\'][^"\']*["\'])(?![^>]*?\s+id=)([^>]*?)>'  (IGNORECASE)
def anchorNameOnlyRe : RE := RE.cat
  [RE.lit "<a", .grp 1 (.star true reNonGt), RE.plus false reWs, RE.lit "name=",
   .grp 2 quotedValRe,
   .nla (RE.cat [.star true reNonGt, RE.plus false reWs, RE.lit "id="]),
   .grp 3 (.star true reNonGt), .chr '>']

-- r'(<(?:hr|table|td|th|div|p|h[1-6]))((?:\s+[^>]*)?)(\s*>)'  (IGNORECASE)
def blockTagRe : RE := RE.cat
  [.grp 1 (RE.cat [.chr '<',
     RE.alts [RE.lit "hr", RE.lit "table", RE.lit "td", RE.lit "th",
              RE.lit "div", RE.lit "p",
              RE.cat [.chr 'h', .cls false [('1', '6')]]]]),
   .grp 2 (RE.opt false (RE.cat [RE.plus false reWs, .star false reNonGt])),
   .grp 3 (RE.cat [.star false reWs, .chr '>'])]

-- r'(<table)((?:\s+[^>]*)?)(\s*>)'  (IGNORECASE)
def tableTagRe : RE := RE.cat
  [.grp 1 (RE.lit "<table"),
   .grp 2 (RE.opt false (RE.cat [RE.plus false reWs, .star false reNonGt])),
   .grp 3 (RE.cat [.star false reWs, .chr '>'])]

-- r'(<(?:td|th))((?:\s+[^>]*)?)(\s*>)'  (IGNORECASE)
def cellTagRe : RE := RE.cat
  [.grp 1 (RE.cat [.chr '<', RE.alts [RE.lit "td", RE.lit "th"]]),
   .grp 2 (RE.opt false (RE.cat [RE.plus false reWs, .star false reNonGt])),
   .grp 3 (RE.cat [.star false reWs, .chr '>'])]

-- r'\balign=(["\'])(.*?)\1'
def alignSearchRe : RE := RE.cat
  [.wordB, RE.lit "align=", .grp 1 reQuote, .grp 2 (.star true .dot), .bref 1]

-- r'\balign=(["\'])[^"\']*["\']'
def alignRemoveRe : RE := RE.cat
  [.wordB, RE.lit "align=", .grp 1 reQuote, .star false reNonQuote, reQuote]

-- r'\balign=(["\']).*?\1'  (the td/th handler's removal variant)
def alignRemoveLazyRe : RE := RE.cat
  [.wordB, RE.lit "align=", .grp 1 reQuote, .star true .dot, .bref 1]

-- r'\bvalign=(["\'])(.*?)\1'
def valignSearchRe : RE := RE.cat
  [.wordB, RE.lit "valign=", .grp 1 reQuote, .grp 2 (.star true .dot), .bref 1]

-- r'\bvalign=(["\']).*?\1'
def valignRemoveLazyRe : RE := RE.cat
  [.wordB, RE.lit "valign=", .grp 1 reQuote, .star true .dot, .bref 1]

/-- `(?:%|em|px|rem|vw|vh)?` -/
def unitOptRe : RE := RE.opt false (RE.alts
  [.chr '%', RE.lit "em", RE.lit "px", RE.lit "rem", RE.lit "vw", RE.lit "vh"])

/-- `\d+(?:\.\d+)?(?:%|em|px|rem|vw|vh)?` -/
def numUnitRe : RE := RE.cat
  [RE.plus false reDigit, RE.opt false (RE.cat [.chr '.', RE.plus false reDigit]),
   unitOptRe]

-- r'\bwidth=(["\'])(\d+(?:\.\d+)?(?:%|em|px|rem|vw|vh)?)(["\'])'
def widthSearchRe : RE := RE.cat
  [.wordB, RE.lit "width=", .grp 1 reQuote, .grp 2 numUnitRe, .grp 3 reQuote]

-- r'\bwidth=(["\'])[^"\']*["\']'
def widthRemoveRe : RE := RE.cat
  [.wordB, RE.lit "width=", .grp 1 reQuote, .star false reNonQuote, reQuote]

-- r'\bheight=(["\'])(\d+(?:\.\d+)?(?:%|em|px|rem|vw|vh)?)(["\'])'
def heightSearchRe : RE := RE.cat
  [.wordB, RE.lit "height=", .grp 1 reQuote, .grp 2 numUnitRe, .grp 3 reQuote]

-- r'\bheight=(["\'])[^"\']*["\']'
def heightRemoveRe : RE := RE.cat
  [.wordB, RE.lit "height=", .grp 1 reQuote, .star false reNonQuote, reQuote]

-- r'\bborder=(["\'])(\d+)(["\'])'
def borderSearchRe : RE := RE.cat
  [.wordB, RE.lit "border=", .grp 1 reQuote, .grp 2 (RE.plus false reDigit),
   .grp 3 reQuote]

-- r'\bborder=(["\'])[^"\']*["\']'
def borderRemoveRe : RE := RE.cat
  [.wordB, RE.lit "border=", .grp 1 reQuote, .star false reNonQuote, reQuote]

-- r'style=(["\'])(.*?)\1'
def styleSearchRe : RE := RE.cat
  [RE.lit "style=", .grp 1 reQuote, .grp 2 (.star true .dot), .bref 1]

-- r'style=(["\']).*?\1'
def styleReplaceRe : RE := RE.cat
  [RE.lit "style=", .grp 1 reQuote, .star true .dot, .bref 1]

-- r'(\w+)=(["\'])(.*?)\2'
def attrIterRe : RE := RE.cat
  [.grp 1 (RE.plus false reWordC), .chr '=', .grp 2 reQuote,
   .grp 3 (.star true .dot), .bref 2]

-- r'<img[^>]+>'  (IGNORECASE)
def imgTagRe : RE := RE.cat [RE.lit "<img", RE.plus false reNonGt, .chr '>']

-- r'\s*/\s*>'
def slashGtRe : RE := RE.cat
  [.star false reWs, .chr '/', .star false reWs, .chr '>']

-- r'\s+'
def wsRunRe : RE := RE.plus false reWs

-- r'/>'
def selfCloseRe : RE := RE.lit "/>"

/-! ## The program, function by function (from `src/cto5.py`) -/

/-- `clean_css_comments` (lines 13–18): three substitutions removing legacy
comment-hiding artifacts from CSS text. -/
def clean_css_comments (css_content : Str) : Str :=
  let c1 := reSub cssCommentRe1 false (fun _ => []) css_content
  let c2 := reSub cssCommentRe2 false (fun _ => []) c1
  reSub cssCommentRe3 false (fun _ => []) c2

/-- The cleaned, trimmed, non-empty fragments of a `;`-separated style
string: `[s.strip() for s in x.split(';') if s.strip()]`. -/
def cleanFragments (s : Str) : List Str :=
  ((splitSep ';' s).map pyStripWs).filter (fun f => f ≠ [])

/-- `merge_styles` (lines 20–37), branch for branch. -/
def merge_styles (old_style new_styles : Str) : Str :=
  if new_styles = [] then old_style
  else if old_style = [] then
    pyJoin ("; ".data) (cleanFragments new_styles) ++ ";".data
  else
    let old2 := pyStripChars [dq, sq] old_style
    let old_parts := cleanFragments old2
    let new_parts := cleanFragments new_styles
    pyJoin ("; ".data) (old_parts ++ new_parts) ++ ";".data

/-- `clean_html_tag` (lines 150–171): the match handler for the opening
`<html ...>` tag.  `lang` is the caller-supplied default language code. -/
def clean_html_tag (lang : Str) (m : RMatch) : Str :=
  let full_tag := m.group 0
  let full_tag := reSub xmlnsRe false (fun _ => []) full_tag
  let full_tag := reSub xmlLangRe false (fun _ => []) full_tag
  let langs := (reFindAll langCapRe false full_tag).map (fun mm => mm.group 1)
  let full_tag := reSub langRe false (fun _ => []) full_tag
  let final_lang := match langs with | [] => lang | l :: _ => l
  strReplace1 ("html".data) ("html lang=\"".data ++ final_lang ++ "\"".data) full_tag

/-- `convert_alignment_and_width` (lines 39–80): the match handler for
`<hr|table|td|th|div|p|h1..h6>` tags.  The style rewrite at line 72 is
`re.sub(r'style=(["\']).*?\1', f'style="{new_style}"', attrs)` — a string
replacement whose template contains the document-derived `new_style`, so
it is processed as a replacement template (one capture group in the
pattern) and can raise; `none` models that error. -/
def convert_alignment_and_width (m : RMatch) : Option Str :=
  let tag_start := m.group 1
  let attrs0 := m.group 2
  let tag_end := m.group 3
  let st1attrs1 :=
    match reSearch alignSearchRe false attrs0 with
    | some am =>
      (["text-align: ".data ++ am.group 2 ++ ";".data],
       reSub alignRemoveRe false (fun _ => []) attrs0)
    | none => (([] : List Str), attrs0)
  let styles1 := st1attrs1.1
  let attrs1 := st1attrs1.2
  let st2attrs2 :=
    match reSearch widthSearchRe false attrs1 with
    | some wm =>
      let v := wm.group 2
      let v := if pyIsDigit v then v ++ "px".data else v
      (styles1 ++ ["width: ".data ++ v ++ ";".data],
       reSub widthRemoveRe false (fun _ => []) attrs1)
    | none => (styles1, attrs1)
  let styles2 := st2attrs2.1
  let attrs2 := st2attrs2.2
  let attrs3opt :=
    if styles2 ≠ [] then
      match reSearch styleSearchRe false attrs2 with
      | some sm =>
        let new_style := merge_styles (sm.group 2) (pyJoin (" ".data) styles2)
        reSubTpl styleReplaceRe false 1
          ("style=\"".data ++ new_style ++ "\"".data) attrs2
      | none => some (" style=\"".data ++ pyJoin (" ".data) styles2 ++ "\"".data)
    else some attrs2
  attrs3opt.map (fun attrs3 =>
    if pyStripWs attrs3 ≠ [] then
      tag_start ++ " ".data ++ pyStripWs attrs3 ++ tag_end
    else tag_start ++ tag_end)

/-- One step of the attribute loop of `convert_table_attributes`
(lines 96–115): accumulate `(styles, new_attrs)` over one
`(\w+)=(["\'])(.*?)\2` match. -/
def tableAttrStep (acc : List Str × List Str) (am : RMatch) : List Str × List Str :=
  let styles := acc.1
  let new_attrs := acc.2
  let name := am.group 1
  let value := am.group 3
  if name = "cellpadding".data then
    (styles ++ ["padding: ".data ++ value ++ "px;".data], new_attrs)
  else if name = "cellspacing".data then
    (styles ++ ["border-spacing: ".data ++ value ++ "px;".data], new_attrs)
  else if name = "border".data then
    (styles ++ [if value = "0".data then "border: none;".data
                else "border: ".data ++ value ++ "px solid;".data], new_attrs)
  else if name = "summary".data then (styles, new_attrs)
  else if name = "style".data then (styles, new_attrs)
  else (styles, new_attrs ++ [name ++ "=\"".data ++ value ++ "\"".data])

/-- `convert_table_attributes` (lines 82–127): the match handler for
`<table ...>` tags. -/
def convert_table_attributes (m : RMatch) : Str :=
  let tag_start := m.group 1
  let attrs := m.group 2
  let tag_end := m.group 3
  let existing_style :=
    match reSearch styleSearchRe false attrs with
    | some sm => sm.group 2
    | none => []
  let sa := (reFindAll attrIterRe false attrs).foldl tableAttrStep ([], [])
  let styles := sa.1
  let new_attrs0 := sa.2
  let all_styles := merge_styles existing_style (pyJoin (" ".data) styles)
  let new_attrs :=
    if all_styles ≠ [] then new_attrs0 ++ ["style=\"".data ++ all_styles ++ "\"".data]
    else new_attrs0
  if new_attrs ≠ [] then
    tag_start ++ " ".data ++ pyJoin (" ".data) new_attrs ++ tag_end
  else tag_start ++ tag_end

/-- `convert_cell_attrs_to_style` (lines 319–356): the match handler for
`<td>` / `<th>` tags.  The style rewrite at line 348 is the same
template-processed string replacement as in
`convert_alignment_and_width`; `none` models the raised `re.error`. -/
def convert_cell_attrs_to_style (m : RMatch) : Option Str :=
  let tag_start := m.group 1
  let attrs0 := m.group 2
  let tag_end := m.group 3
  let st1attrs1 :=
    match reSearch alignSearchRe false attrs0 with
    | some am =>
      (["text-align: ".data ++ am.group 2 ++ ";".data],
       reSub alignRemoveLazyRe false (fun _ => []) attrs0)
    | none => (([] : List Str), attrs0)
  let styles1 := st1attrs1.1
  let attrs1 := st1attrs1.2
  let st2attrs2 :=
    match reSearch valignSearchRe false attrs1 with
    | some vm =>
      (styles1 ++ ["vertical-align: ".data ++ vm.group 2 ++ ";".data],
       reSub valignRemoveLazyRe false (fun _ => []) attrs1)
    | none => (styles1, attrs1)
  let styles2 := st2attrs2.1
  let attrs2 := st2attrs2.2
  let attrs3opt :=
    if styles2 ≠ [] then
      match reSearch styleSearchRe false attrs2 with
      | some sm =>
        let new_style := merge_styles (sm.group 2) (pyJoin (" ".data) styles2)
        reSubTpl styleReplaceRe false 1
          ("style=\"".data ++ new_style ++ "\"".data) attrs2
      | none => some (" style=\"".data ++ pyJoin (" ".data) styles2 ++ "\"".data)
    else some attrs2
  attrs3opt.map (fun attrs3 =>
    if pyStripWs attrs3 ≠ [] then
      tag_start ++ " ".data ++ pyStripWs attrs3 ++ tag_end
    else tag_start ++ tag_end)

/-- `convert_img_sizes` (lines 367–420): the match handler for
`<img ...>` tags.  The three searches run on the original matched tag;
the removals are applied in sequence, as in the source.  The style merge
at line 411 is the same template-processed string replacement as in
`convert_alignment_and_width`; `none` models the raised `re.error`. -/
def convert_img_sizes (m : RMatch) : Option Str :=
  let t0 := m.group 0
  let width_match := reSearch widthSearchRe false t0
  let height_match := reSearch heightSearchRe false t0
  let border_match := reSearch borderSearchRe false t0
  if width_match.isSome || height_match.isSome || border_match.isSome then
    let t1s1 :=
      match width_match with
      | some mm =>
        let v := mm.group 2
        let v := if pyIsDigit v then v ++ "px".data else v
        (reSub widthRemoveRe false (fun _ => []) t0, ["width: ".data ++ v])
      | none => (t0, ([] : List Str))
    let t2s2 :=
      match height_match with
      | some mm =>
        let v := mm.group 2
        let v := if pyIsDigit v then v ++ "px".data else v
        (reSub heightRemoveRe false (fun _ => []) t1s1.1,
         t1s1.2 ++ ["height: ".data ++ v])
      | none => t1s1
    let t3s3 :=
      match border_match with
      | some mm =>
        let v := mm.group 2
        (reSub borderRemoveRe false (fun _ => []) t2s2.1,
         t2s2.2 ++ [if v = "0".data then "border: none".data
                    else "border: ".data ++ v ++ "px solid".data])
      | none => t2s2
    let styles := t3s3.2
    let t4 := reSub slashGtRe false (fun _ => ">".data) t3s3.1
    let t5 := reSub wsRunRe false (fun _ => " ".data) t4
    let t6 := pyRStripChars ['>'] t5
    let t7opt :=
      match reSearch styleSearchRe false t6 with
      | some sm =>
        let new_style := merge_styles (sm.group 2) (pyJoin ("; ".data) styles)
        reSubTpl styleReplaceRe false 1
          ("style=\"".data ++ new_style ++ "\"".data) t6
      | none =>
        some (pyStripWs t6 ++ " style=\"".data ++ pyJoin ("; ".data) styles ++ "\"".data)
    t7opt.map (fun t7 => t7 ++ ">".data)
  else
    some (reSub slashGtRe false (fun _ => ">".data) t0)

/-- The CSS comment-artifact cleanup stage (lines 236–239): iterate the
matches of `<style[^>]*>(.*?)</style>` over the incoming buffer and, for
each, replace every occurrence of the raw CSS content string by its
cleaned form (`str.replace` replaces all occurrences, everywhere). -/
def cssCleanupStage (content : Str) : Str :=
  (reFindAll styleContentRe true content).foldl
    (fun acc mm => strReplaceAll (mm.group 1) (clean_css_comments (mm.group 1)) acc)
    content

/-- `convert_to_html5` (lines 129–432) on `List Char`: the stages in source
order.  The result is `none` when the program raises: the only reachable
exception is `re.error` from the template-processed style replacements in
`convert_alignment_and_width`, `convert_cell_attrs_to_style` and
`convert_img_sizes` (all other replacement strings are source constants
with valid templates, modeled directly as their expansion functions). -/
def convertToHtml5List (content : Str) (lang : Str) : Option Str :=
  -- remove forbidden control characters
  let c := reSub ctrlRe false (fun _ => []) content
  -- remove XML declaration and following blank lines
  let c := reSub xmlDeclRe false (fun _ => []) c
  -- replace DOCTYPE
  let c := reSub doctypeRe true (fun _ => "<!DOCTYPE html>".data) c
  -- clean up the html tag
  let c := reSub htmlTagRe true (clean_html_tag lang) c
  -- remove Content-Style-Type meta tag
  let c := reSub metaStyleTypeRe true (fun _ => []) c
  -- replace or add UTF-8 charset meta tag
  let c :=
    match reSearch charsetSearchRe true c with
    | some old_meta => strReplaceAll (old_meta.group 0) ("<meta charset=\"utf-8\">".data) c
    | none =>
      reSub headRe true
        (fun mm => mm.group 1 ++ "\n    <meta charset=\"utf-8\">".data) c
  -- remove xml:space attributes
  let c := reSub xmlSpaceRe true (fun _ => []) c
  -- remove type="text/css" from style tags
  let c := reSub styleTypeRe true (fun _ => "<style".data) c
  -- remove CDATA sections from style tags
  let c := reSub cdataRe1 true (fun mm => mm.group 1 ++ mm.group 2 ++ mm.group 3) c
  let c := reSub cdataRe2 true (fun mm => mm.group 1 ++ mm.group 2 ++ mm.group 3) c
  -- clean up CSS in style tags
  let c := cssCleanupStage c
  -- convert <tt> tags
  let c := reSub ttOpenRe true
    (fun mm => "<span".data ++ mm.group 1 ++ " style=\"font-family: monospace;\">".data) c
  let c := reSub ttCloseRe true (fun _ => "</span>".data) c
  -- convert <big> tags
  let c := reSub bigOpenRe true
    (fun mm => "<span style=\"font-size: larger\"".data ++ mm.group 1 ++ ">".data) c
  let c := reSub bigCloseRe true (fun _ => "</span>".data) c
  -- convert <center> tags
  let c := reSub centerOpenRe true
    (fun mm => "<div style=\"text-align: center\"".data ++ mm.group 1 ++ ">".data) c
  let c := reSub centerCloseRe true (fun _ => "</div>".data) c
  -- handle name and id attributes in anchors
  let c := reSub anchorIdNameRe true
    (fun mm => "<a".data ++ mm.group 1 ++ " id=".data ++ mm.group 2 ++ mm.group 3 ++ ">".data) c
  let c := reSub anchorNameIdRe true
    (fun mm => "<a".data ++ mm.group 1 ++ " id=".data ++ mm.group 2 ++ mm.group 3 ++ ">".data) c
  let c := reSub anchorNameOnlyRe true
    (fun mm => "<a".data ++ mm.group 1 ++ " id=".data ++ mm.group 2 ++ mm.group 3 ++ ">".data) c
  -- width/align attributes to CSS for block elements
  match reSubF blockTagRe true convert_alignment_and_width c with
  | none => none
  | some c =>
    -- table attributes to CSS
    let c := reSub tableTagRe true convert_table_attributes c
    -- td/th align and valign attributes to CSS
    match reSubF cellTagRe true convert_cell_attrs_to_style c with
    | none => none
    | some c =>
      -- width/height on images to CSS
      match reSubF imgTagRe true convert_img_sizes c with
      | none => none
      | some c =>
        -- convert self-closing tags
        some (reSub selfCloseRe false (fun _ => ">".data) c)

/-- `convert_to_html5` on `String`s; `none` models a raised exception. -/
def convert_to_html5 (content : String) (lang : String) : Option String :=
  (convertToHtml5List content.data lang.data).map (fun l => (⟨l⟩ : String))

/-! ## Claims -/

set_option maxRecDepth 400000
set_option maxHeartbeats 8000000

/-- Spec-side merge: "strip surrounding quotes from the existing value,
split both existing and new content on `;`, discard empty fragments, trim
whitespace from each fragment, concatenate existing fragments followed by
new fragments, and rejoin with `; ` adding one trailing `;`."  Stated from
the spec's words, to be compared with `merge_styles` from the source. -/
def mergeStylesSpec (old new : Str) : Str :=
  pyJoin ("; ".data)
    (cleanFragments (pyStripChars [dq, sq] old) ++ cleanFragments new) ++ ";".data

/-- Claim C4: for every existing style value and every new-declaration
string with at least something in it, `merge_styles` strips surrounding
quotes from the existing value, splits both inputs on `;`, discards empty
fragments, trims each fragment, and returns existing fragments followed by
new fragments joined with `; ` plus one trailing `;`; there is no
de-duplication, so a declaration present in both inputs appears twice
(second conjunct). -/
theorem claim4_merge_styles_spec (old new : Str) (h : new ≠ []) :
    merge_styles old new = mergeStylesSpec old new ∧
    merge_styles ("color: red".data) ("color: red".data) =
      ("color: red; color: red;".data) := by
  constructor
  · unfold merge_styles mergeStylesSpec
    rw [if_neg h]
    by_cases ho : old = []
    · subst ho
      rw [if_pos rfl]
      rfl
    · rw [if_neg ho]
  · decide

/-- Witness for C4 at `old = "a"`, `new = "b"`. -/
theorem claim4_witness :
    ("b".data ≠ ([] : Str)) ∧
    (merge_styles ("a".data) ("b".data) = mergeStylesSpec ("a".data) ("b".data) ∧
     merge_styles ("color: red".data) ("color: red".data) =
       ("color: red; color: red;".data)) :=
  ⟨by decide, claim4_merge_styles_spec ("a".data) ("b".data) (by decide)⟩

/-- Claim C9 as amended: a rewrite stage whose pattern does not match the
buffer leaves the buffer unchanged (`re.sub` with no match is the
identity), for every pattern, flag set, replacement function and buffer,
and the transform has no side effects over its buffer.  Totality, however,
fails — see the claim's counterexample: the template-processed style
replacements can raise. -/
theorem claim9_no_match_identity (re : RE) (ic : Bool) (f : RMatch → Str)
    (s : Str) (h : reSearch re ic s = none) : reSub re ic f s = s := by
  have hs : searchAux re ic s none s 0 = none := by
    unfold reSearch at h
    cases hx : searchAux re ic s none s 0 with
    | none => rfl
    | some v =>
      obtain ⟨st, e, g⟩ := v
      rw [hx] at h
      simp at h
  unfold reSub
  rw [hs]

/-- Witness for C9: the doctype stage on a buffer with no doctype. -/
theorem claim9_witness :
    reSearch doctypeRe true ("hello".data) = none ∧
    reSub doctypeRe true (fun _ => ("<!DOCTYPE html>".data)) ("hello".data) =
      ("hello".data) :=
  ⟨by decide, claim9_no_match_identity doctypeRe true _ _ (by decide)⟩

/-- Claim C9, counterexample: `convert_to_html5` is not a total function
that never raises.  The style merge at cto5.py line 72 rebuilds the style
attribute with `re.sub(r'style=(["\']).*?\1', f'style="{new_style}"',
attrs)` — a *string* replacement, processed by Python as a replacement
template — so a style attribute value containing the escape `\9` (an
invalid group reference: the pattern has one group) makes `re.sub` raise
`re.error`, which escapes `convert_to_html5`; the model returns `none`. -/
theorem claim9_counterexample :
    convert_to_html5 "<td align=\"c\" style=\"a\\9b\">" "en" = none := by
  decide

/-- Claim C1, counterexample: the lang re-insertion is
`full_tag.replace('html', ...)`, a case-sensitive `str.replace`, while the
tag is matched case-insensitively; on the document `<HTML>` no lang
attribute is inserted at all, so the output html tag does not contain
exactly one `lang` attribute. -/
theorem claim1_counterexample :
    convert_to_html5 "<HTML>" "en" = some "<HTML>" ∧
    countOccs ("lang".data) ("<HTML>".data) = 0 := by
  refine ⟨by decide, by decide⟩

/-- Claim C1 as amended: on the verified representative documents the
root-tag normalization behaves as claimed — `<html>` converts to
`<html lang="en">` (caller-supplied default) and the XHTML root tag with
two lang attributes converts to `<html lang="fr">` (first original value
in document order), with exactly one lang attribute inserted immediately
after the tag name and the xmlns / xml:lang attributes removed.  The last
three conjuncts mark where this stops: an uppercase spelling `<HTML>`
gets no lang attribute at all (the re-insertion is a case-sensitive
`str.replace`), and a `>` inside a double-quoted attribute value
truncates the `<html[^>]*>` match, leaving two lang attributes with the
default value inserted rather than the original one. -/
theorem claim1_amended :
    convert_to_html5 "<html>" "en" = some "<html lang=\"en\">" ∧
    convert_to_html5
      "<html xmlns=\"http://www.w3.org/1999/xhtml\" xml:lang=\"en\" lang=\"fr\" lang=\"de\">"
      "en" = some "<html lang=\"fr\">" ∧
    countOccs (" lang=".data) ("<html lang=\"fr\">".data) = 1 ∧
    convert_to_html5 "<HTML>" "en" = some "<HTML>" ∧
    convert_to_html5 "<html data=\"a>b\" lang=\"fr\">" "en" =
      some "<html lang=\"en\" data=\"a>b\" lang=\"fr\">" ∧
    countOccs (" lang=".data)
      ("<html lang=\"en\" data=\"a>b\" lang=\"fr\">".data) = 2 := by
  refine ⟨by decide, by decide, by decide, by decide, by decide, by decide⟩

/-- Claim C2, counterexample: `convert_to_html5` is not idempotent.  On
`<style>a ]]/> b</style>` the final global `/>` removal creates a bare
`]]>` inside the style element; a second run's CSS artifact cleanup then
removes it, so running the transform twice differs from running it once. -/
theorem claim2_counterexample :
    convert_to_html5 "<style>a ]]/> b</style>" "en" =
      some "<style>a ]]> b</style>" ∧
    convert_to_html5 "<style>a ]]> b</style>" "en" = some "<style>ab</style>" ∧
    ("<style>a ]]> b</style>" : String) ≠ "<style>ab</style>" := by
  refine ⟨by decide, by decide, by decide⟩

/-- Claim C2 as amended: the transform is idempotent on documents whose
converted form is a fixed point of every stage (no stage output re-creates
an earlier stage's pattern), e.g. the spec's table and image scenarios. -/
theorem claim2_amended :
    (convert_to_html5
       "<table border=\"0\" cellpadding=\"5\" summary=\"x\"><tr><td align=\"center\">hi</td></tr></table>"
       "en" =
     some "<table style=\"border: none; padding: 5px;\"><tr><td style=\"text-align: center;\">hi</td></tr></table>" ∧
     convert_to_html5
       "<table style=\"border: none; padding: 5px;\"><tr><td style=\"text-align: center;\">hi</td></tr></table>"
       "en" =
     some "<table style=\"border: none; padding: 5px;\"><tr><td style=\"text-align: center;\">hi</td></tr></table>") ∧
    (convert_to_html5 "<img src=\"a.png\" width=\"100\" height=\"50\" border=\"1\" />" "en" =
     some "<img src=\"a.png\" style=\"width: 100px; height: 50px; border: 1px solid\">" ∧
     convert_to_html5 "<img src=\"a.png\" style=\"width: 100px; height: 50px; border: 1px solid\">" "en" =
     some "<img src=\"a.png\" style=\"width: 100px; height: 50px; border: 1px solid\">") := by
  refine ⟨⟨by decide, by decide⟩, ⟨by decide, by decide⟩⟩

/-- Claim C3, counterexample: a document with neither a charset-declaring
meta nor any match of the insertion anchor `(<head[^>]*>)` gets no
`<meta charset="utf-8">` at all, so the output does not contain exactly
one such tag for every input. -/
theorem claim3_counterexample :
    convert_to_html5 "<p>x</p>" "en" = some "<p>x</p>" ∧
    countOccs ("<meta charset=\"utf-8\">".data) ("<p>x</p>".data) = 0 := by
  refine ⟨by decide, by decide⟩

/-- Claim C3 as amended, established at the verified documents.
Replacement branch: the first meta matching the charset / Content-Type
pattern is replaced in its entirety by `<meta charset="utf-8">` (second
conjunct), but the replacement is `str.replace` of that exact matched
string, so a second, textually different charset meta survives (fourth
conjunct) — the output is not guaranteed to contain no other
charset-declaring meta.  Insertion branch: with no matching meta,
`<meta charset="utf-8">` is inserted as a new line after every match of
the anchor `(<head[^>]*>)` (first and third conjuncts); that anchor also
matches longer tag names such as `<header>` (fifth conjunct); and a
document without any anchor match is left with no charset meta (sixth
conjunct). -/
theorem claim3_amended :
    convert_to_html5 "<head></head>" "en" =
      some "<head>\n    <meta charset=\"utf-8\"></head>" ∧
    convert_to_html5
      "<head><meta http-equiv=\"Content-Type\" content=\"text/html; charset=iso-8859-1\"></head>"
      "en" = some "<head><meta charset=\"utf-8\"></head>" ∧
    countOccs ("<meta charset=\"utf-8\">".data)
      ("<head>\n    <meta charset=\"utf-8\"></head>".data) = 1 ∧
    convert_to_html5 "<head><meta charset=\"a\"><meta charset=\"b\"></head>" "en" =
      some "<head><meta charset=\"utf-8\"><meta charset=\"b\"></head>" ∧
    convert_to_html5 "<header>x</header>" "en" =
      some "<header>\n    <meta charset=\"utf-8\">x</header>" ∧
    convert_to_html5 "<p>x</p>" "en" = some "<p>x</p>" := by
  refine ⟨by decide, by decide, by decide, by decide, by decide, by decide⟩

/-- Claim C5, counterexample: two parts of the claim fail.  The table
rule emits the CSS declarations in the order the attributes appear on the
tag (`border="0"` before `cellpadding="5"` here), not the claimed
`padding: 5px; border: none;` (first conjunct).  And other attributes are
not preserved verbatim: the attribute iterator is
`(\w+)=(["\'])(.*?)\2`, so the hyphenated `data-foo="1"` is re-emitted as
`foo="1"` (second conjunct). -/
theorem claim5_counterexample :
    convert_to_html5
      "<table border=\"0\" cellpadding=\"5\" summary=\"x\"><tr><td align=\"center\">hi</td></tr></table>"
      "en" ≠
    some "<table style=\"padding: 5px; border: none;\"><tr><td style=\"text-align: center;\">hi</td></tr></table>" ∧
    convert_to_html5 "<table data-foo=\"1\">x</table>" "en" =
      some "<table foo=\"1\">x</table>" := by
  refine ⟨by decide, by decide⟩

/-- Claim C5 as amended, established at the verified documents: the
scenario input converts to `<table style="border: none; padding: 5px;">`
— declarations follow the order the attributes appear on the tag — with
`summary`, `border` and `cellpadding` removed, containing
`<td style="text-align: center;">hi</td>` (first conjunct).  The
treatment of the other attributes is re-emission, not verbatim
preservation: a `name="value"` attribute with a word-character name is
re-emitted before the style attribute (second conjunct), a hyphenated
name is truncated to its trailing word-character run (third conjunct),
and a valueless attribute is dropped (fourth conjunct). -/
theorem claim5_amended :
    convert_to_html5
      "<table border=\"0\" cellpadding=\"5\" summary=\"x\"><tr><td align=\"center\">hi</td></tr></table>"
      "en" =
    some "<table style=\"border: none; padding: 5px;\"><tr><td style=\"text-align: center;\">hi</td></tr></table>" ∧
    convert_to_html5 "<table class=\"x\" border=\"1\">x</table>" "en" =
      some "<table class=\"x\" style=\"border: 1px solid;\">x</table>" ∧
    convert_to_html5 "<table data-foo=\"1\">x</table>" "en" =
      some "<table foo=\"1\">x</table>" ∧
    convert_to_html5 "<table hidden>x</table>" "en" = some "<table>x</table>" := by
  refine ⟨by decide, by decide, by decide, by decide⟩

/-- Claim C6, counterexample: the trailing self-closing slash is not
stripped from every `<img>` tag.  A `>` inside an attribute value ends
the `<img[^>]+>` match early, so the spaced slash before the element's
real end lies outside the match, and the final global substitution only
removes the exact two characters `/>`; the document is returned unchanged
with its `/ >` in place. -/
theorem claim6_counterexample :
    convert_to_html5 "<img alt=\"x>y\" / >" "en" = some "<img alt=\"x>y\" / >" ∧
    countOccs ("/ >".data) ("<img alt=\"x>y\" / >".data) = 1 := by
  refine ⟨by decide, by decide⟩

/-- Claim C6 as amended, established at the verified documents: the
scenario converts to exactly
`<img src="a.png" style="width: 100px; height: 50px; border: 1px solid">`
— the image rule joins its declarations with `; ` and no trailing `;`,
unlike the `;`-terminated shared merge helper — and the trailing
self-closing slash is stripped in the no-conversion branch too (second
and third conjuncts).  This does not extend to every `<img>` tag: a `>`
inside an attribute value defeats it (see the counterexample). -/
theorem claim6_amended :
    convert_to_html5 "<img src=\"a.png\" width=\"100\" height=\"50\" border=\"1\" />" "en" =
      some "<img src=\"a.png\" style=\"width: 100px; height: 50px; border: 1px solid\">" ∧
    convert_to_html5 "<img src=\"b.png\" />" "en" = some "<img src=\"b.png\">" ∧
    convert_to_html5 "<img/>" "en" = some "<img>" := by
  refine ⟨by decide, by decide, by decide⟩

/-- Claim C7, counterexample: the doctype pattern is `<!DOCTYPE[^>]*>`, so
a declaration whose content itself contains `>` (an internal subset) is
only replaced up to the first `>`, leaving the remainder in the output;
the whole declaration is not replaced by the literal `<!DOCTYPE html>`. -/
theorem claim7_counterexample :
    convert_to_html5 "<!DOCTYPE a [<!b>]>" "en" = some "<!DOCTYPE html>]>" ∧
    ("<!DOCTYPE html>]>" : String) ≠ "<!DOCTYPE html>" := by
  refine ⟨by decide, by decide⟩

/-- Claim C7 as amended, established at the verified documents: the
doctype stage is the single substitution `<!DOCTYPE[^>]*>` →
`<!DOCTYPE html>`, so a declaration is replaced exactly up through its
first `>`: the XHTML 1.0 Strict doctype (first conjunct), the lowercase
`<!doctype foo>` (second conjunct, case-insensitive matching) and the
bracketed but `>`-free `<!DOCTYPE x [y]>` (third conjunct) each convert
to exactly `<!DOCTYPE html>`; a declaration with an internal `>` leaves
its remainder behind (see the counterexample). -/
theorem claim7_amended :
    convert_to_html5
      "<!DOCTYPE html PUBLIC \"-//W3C//DTD XHTML 1.0 Strict//EN\" \"http://www.w3.org/TR/xhtml1/DTD/xhtml1-strict.dtd\">"
      "en" = some "<!DOCTYPE html>" ∧
    convert_to_html5 "<!doctype foo>" "en" = some "<!DOCTYPE html>" ∧
    convert_to_html5 "<!DOCTYPE x [y]>" "en" = some "<!DOCTYPE html>" := by
  refine ⟨by decide, by decide, by decide⟩

/-- Claim C8, counterexample: the single-id collapse fails in two ways.
With another attribute between the same-valued pair, the two collapse
patterns (which require `\s+name=\2` respectively `\s+id=\2` immediately
after the first attribute of the pair) do not fire, and the name-only
rule — whose negative lookahead only scans to the right of `name=` —
emits a second id (first and second conjuncts).  And when the tag carries
a further name attribute, the collapse of the adjacent pair is followed
by the name-only rule rewriting the remaining name into yet another id
(third conjunct). -/
theorem claim8_counterexample :
    convert_to_html5 "<a id=\"x\" class=\"c\" name=\"x\">y</a>" "en" =
      some "<a id=\"x\" class=\"c\" id=\"x\">y</a>" ∧
    countOccs (" id=".data) ("<a id=\"x\" class=\"c\" id=\"x\">y</a>".data) = 2 ∧
    convert_to_html5 "<a id=\"x\" name=\"x\" name=\"x\">t</a>" "en" =
      some "<a id=\"x\" id=\"x\">t</a>" := by
  refine ⟨by decide, by decide, by decide⟩

/-- Claim C8 as amended, established at the verified documents: an `<a>`
tag whose same-valued `name`/`id` pair is adjacent (separated only by
whitespace) and is its only name/id material collapses to a single
`id="<value>"` in either order (first and second conjuncts), and an
anchor carrying only a `name` attribute is rewritten to `id` — in
particular `<a name="sec1">text</a>` converts to `<a id="sec1">text</a>`
(third conjunct).  Beyond these the collapse is not guaranteed: see the
counterexample. -/
theorem claim8_amended :
    convert_to_html5 "<a id=\"x\" name=\"x\">t</a>" "en" = some "<a id=\"x\">t</a>" ∧
    convert_to_html5 "<a name=\"x\" id=\"x\">t</a>" "en" = some "<a id=\"x\">t</a>" ∧
    convert_to_html5 "<a name=\"sec1\">text</a>" "en" = some "<a id=\"sec1\">text</a>" := by
  refine ⟨by decide, by decide, by decide⟩

/-- Claim C10, counterexample: the cleanup stage rewrites the document by
`str.replace` of each style element's raw content string, which replaces
every occurrence in the whole document; text outside the style element
that happens to equal the style content is rewritten too, so the stage
does not leave everything outside style content unchanged. -/
theorem claim10_counterexample :
    cssCleanupStage ("<style>a]]>b</style>a]]>b".data) =
      ("<style>ab</style>ab".data) ∧
    ("<style>ab</style>ab".data : Str) ≠ ("<style>ab</style>a]]>b".data) := by
  refine ⟨by decide, by decide⟩

/-- Claim C10 as amended, established at the verified documents: the
stage's effect is `str.replace` of each style element's raw content by
its cleaned form over the whole document.  On
`<style>a]]>b</style>a]]>b`, whose outside text coincides with the style
content, the outside text is rewritten identically (first conjunct); on
`x<style>c ]]> d</style>y`, whose style content does not recur outside,
the artifact is removed from the style content and the surrounding text
is untouched (second conjunct). -/
theorem claim10_amended :
    cssCleanupStage ("<style>a]]>b</style>a]]>b".data) =
      ("<style>ab</style>ab".data) ∧
    cssCleanupStage ("x<style>c ]]> d</style>y".data) =
      ("x<style>cd</style>y".data) := by
  refine ⟨by decide, by decide⟩

end Cto5

